import Mathlib

/-!
Verification development for the image2markdown repository.

The repository contains four near-identical image-analysis clients
(`src/image_analyzer.py`, `src/image_analyzer_foundry.py`,
`src/image_analyzer_managed_identity.py`, `src/app.py`).  This file gives a
shallow embedding of the parts the claims are about:

* base64 encoding of image bytes (`encode_image`),
* chat-request message building inside `analyze_image`,
* the `_call_with_retry` exponential-backoff loop,
* error propagation of `analyze_image`,
* the `analyze_multiple_images` batch helper.

Bytes are modelled as natural numbers below 256; Python exceptions are an
explicit error type; the remote transport is a parameter (call index to
result), which lets us express the stub transports of the claims.
-/

/-- Model of the Python exceptions that occur on the analysed code paths.
`exc` is a bare `Exception(msg)`, the others carry their class name in the
constructor.  `apiError` stands for an arbitrary error raised by the
underlying transport (openai / azure SDK).  `emptyResponse` is the dedicated
error kind the spec postulates for empty choice lists; no code path of the
repository constructs it (it exists so the spec claim can be stated). -/
inductive PyErr where
  | exc (msg : String)
  | runtimeError (msg : String)
  | valueError (msg : String)
  | indexError (msg : String)
  | attributeError (msg : String)
  | apiError (kind msg : String)
  | emptyResponse (msg : String)
deriving DecidableEq, Repr

/-- Python `str(e)`: the message of the exception. -/
def pyStr : PyErr → String
  | .exc m => m
  | .runtimeError m => m
  | .valueError m => m
  | .indexError m => m
  | .attributeError m => m
  | .apiError _ m => m
  | .emptyResponse m => m

/-- The completion response structure the code reads:
`response.choices[i].message.content`. -/
structure ChatMessage where
  content : String
deriving DecidableEq, Repr

structure Choice where
  message : ChatMessage
deriving DecidableEq, Repr

structure ChatResponse where
  choices : List Choice
deriving DecidableEq, Repr

/-- One content part of a user message: a text part, or an image-url part
(the `detail` field is present only in the foundry / managed-identity
variants). -/
inductive ContentPart where
  | text (t : String)
  | imageUrl (url : String) (detail : Option String)
deriving DecidableEq, Repr

/-- Message content: a plain string (system messages) or a list of parts
(user messages). -/
inductive MessageContent where
  | str (s : String)
  | parts (l : List ContentPart)
deriving DecidableEq, Repr

/-- A role-tagged chat message. -/
structure Message where
  role : String
  content : MessageContent
deriving DecidableEq, Repr

/-! ## Base64 encoding (`encode_image`)

`encode_image` is `base64.b64encode(image_data).decode('utf-8')` in every
variant (`src/image_analyzer.py` line 56, `src/image_analyzer_foundry.py`
line 77, `src/image_analyzer_managed_identity.py` line 127); the embedding
implements standard base64 over byte lists. -/

/-- Character of the standard base64 alphabet at index `n` (for `n < 64`). -/
def b64Char (n : Nat) : Char :=
  if n < 26 then Char.ofNat (65 + n)
  else if n < 52 then Char.ofNat (97 + (n - 26))
  else if n < 62 then Char.ofNat (48 + (n - 52))
  else if n = 62 then '+'
  else '/'

/-- Index of a character in the base64 alphabet (`none` if not in it). -/
def b64Index (c : Char) : Option Nat :=
  if 'A' ≤ c ∧ c ≤ 'Z' then some (c.toNat - 65)
  else if 'a' ≤ c ∧ c ≤ 'z' then some (c.toNat - 97 + 26)
  else if '0' ≤ c ∧ c ≤ '9' then some (c.toNat - 48 + 52)
  else if c = '+' then some 62
  else if c = '/' then some 63
  else none

/-- Standard base64 encoding of a byte list (bytes are naturals `< 256`),
three bytes to four characters, with `=` padding. -/
def b64EncodeChars : List Nat → List Char
  | [] => []
  | [b1] => [b64Char (b1 / 4), b64Char (b1 % 4 * 16), '=', '=']
  | [b1, b2] =>
      [b64Char (b1 / 4), b64Char (b1 % 4 * 16 + b2 / 16), b64Char (b2 % 16 * 4), '=']
  | b1 :: b2 :: b3 :: rest =>
      b64Char (b1 / 4) :: b64Char (b1 % 4 * 16 + b2 / 16) ::
      b64Char (b2 % 16 * 4 + b3 / 64) :: b64Char (b3 % 64) :: b64EncodeChars rest

/-- Standard base64 decoding: four characters to three bytes, honouring `=`
padding at the end; `none` on malformed input. -/
def b64DecodeChars : List Char → Option (List Nat)
  | [] => some []
  | c1 :: c2 :: c3 :: c4 :: rest =>
      (b64Index c1).bind fun s1 =>
      (b64Index c2).bind fun s2 =>
      if c3 = '=' then
        if c4 = '=' ∧ rest = [] then some [s1 * 4 + s2 / 16] else none
      else
        (b64Index c3).bind fun s3 =>
        if c4 = '=' then
          if rest = [] then some [s1 * 4 + s2 / 16, s2 % 16 * 16 + s3 / 4] else none
        else
          (b64Index c4).bind fun s4 =>
          (b64DecodeChars rest).bind fun tl =>
          some ((s1 * 4 + s2 / 16) :: (s2 % 16 * 16 + s3 / 4) :: (s3 % 4 * 64 + s4) :: tl)
  | _ => none

/-- `encode_image`: base64-encode raw image bytes to a string
(`base64.b64encode(image_data).decode('utf-8')`). -/
def encode_image (image_data : List Nat) : String :=
  String.mk (b64EncodeChars image_data)

/-- Standard base64 decoding of a string to bytes. -/
def b64decodeStr (s : String) : Option (List Nat) :=
  b64DecodeChars s.data

/-! ## The retry loop (`_call_with_retry`)

The loop is identical in `src/image_analyzer.py` (lines 126-148),
`src/image_analyzer_managed_identity.py` (lines 209-233),
`src/app.py` (lines 139-162): `for attempt in range(max_retries)` call the
transport; on success return the response; on failure re-raise if
`attempt == max_retries - 1`, otherwise sleep `2 ** attempt + 1` seconds and
continue.  If the loop body never runs (`max_retries <= 0`) the function
falls through and returns `None`. -/

/-- What `_call_with_retry` produces: a response, a raised error, or the
implicit Python `None` when the loop never runs. -/
inductive RetryResult (ε ρ : Type) where
  | ok (r : ρ)
  | err (e : ε)
  | noneResult
deriving DecidableEq, Repr

/-- Observable outcome of one `_call_with_retry` execution: its result, how
many times the transport was invoked, and the list of sleep durations (in
seconds, in order). -/
structure RetryTrace (ε ρ : Type) where
  result : RetryResult ε ρ
  calls : Nat
  sleeps : List Nat
deriving DecidableEq, Repr

/-- The loop of `_call_with_retry` from iteration `attempt` on.  `call k` is
the transport's behaviour on its `k`-th invocation (0-indexed). -/
def call_with_retry_from (call : Nat → Except ε ρ) (max_retries attempt : Nat) :
    RetryTrace ε ρ :=
  if _h : attempt < max_retries then
    match call attempt with
    | .ok r => ⟨.ok r, 1, []⟩
    | .error e =>
        if attempt = max_retries - 1 then ⟨.err e, 1, []⟩
        else
          let t := call_with_retry_from call max_retries (attempt + 1)
          ⟨t.result, t.calls + 1, (2 ^ attempt + 1) :: t.sleeps⟩
  else ⟨.noneResult, 0, []⟩
termination_by max_retries - attempt
decreasing_by omega

/-- `_call_with_retry`: run the loop from attempt 0. -/
def call_with_retry (call : Nat → Except ε ρ) (max_retries : Nat) : RetryTrace ε ρ :=
  call_with_retry_from call max_retries 0

/-! ## Message building inside `analyze_image` -/

/-- Python `x or default` for an optional string: `None` and the empty
string are falsy, every other string (whitespace-only included) is truthy. -/
def pyOrStr (s : Option String) (default : String) : String :=
  match s with
  | none => default
  | some s => if s = "" then default else s

/-- Default system prompt of `src/image_analyzer.py` (lines 80-83). -/
def defaultSystemPrompt : String :=
  "You are an expert image analyst. Provide detailed, accurate descriptions of images. Be thorough but concise in your analysis."

/-- Default user prompt of `src/image_analyzer.py` (lines 85-89). -/
def defaultUserPrompt : String :=
  "Analyze this image and provide a detailed description. Include information about objects, people, setting, colors, mood, and any text visible in the image."

/-- Message list built by `AzureImageAnalyzer.analyze_image`
(`src/image_analyzer.py` lines 91-116): always one system message
(`system_prompt or default`), then one user message with a text part
(`user_prompt or default`) and an image-url part with the fixed
`data:image/jpeg;base64,` prefix. -/
def simpleBuildMessages (system_prompt user_prompt : Option String)
    (encoded_image : String) : List Message :=
  [⟨"system", .str (pyOrStr system_prompt defaultSystemPrompt)⟩,
   ⟨"user", .parts
     [.text (pyOrStr user_prompt defaultUserPrompt),
      .imageUrl ("data:image/jpeg;base64," ++ encoded_image) none]⟩]

/-- Default user prompt of the foundry and managed-identity variants
(`src/image_analyzer_foundry.py` line 131). -/
def foundryDefaultUserPrompt : String :=
  "Analyze this image and provide a detailed description."

/-- Python `str.strip()`: remove whitespace from both ends of the string
(modelled for ASCII whitespace). -/
def pyStrip (s : String) : String :=
  String.mk (((s.data.dropWhile Char.isWhitespace).reverse.dropWhile
    Char.isWhitespace).reverse)

/-- System-message list of the foundry / managed-identity `analyze_image`
(`src/image_analyzer_foundry.py` lines 111-116): one system message with the
stripped prompt when `system_prompt and system_prompt.strip()` is truthy,
otherwise no system message. -/
def foundrySystemMessages (system_prompt : Option String) : List Message :=
  match system_prompt with
  | some s => if s ≠ "" ∧ pyStrip s ≠ "" then [⟨"system", .str (pyStrip s)⟩] else []
  | none => []

/-- Text of the user message's text part in the foundry / managed-identity
`analyze_image` (`src/image_analyzer_foundry.py` lines 121-132): the stripped
prompt when `user_prompt and user_prompt.strip()` is truthy, else the default. -/
def foundryUserText (user_prompt : Option String) : String :=
  match user_prompt with
  | some u => if u ≠ "" ∧ pyStrip u ≠ "" then pyStrip u else foundryDefaultUserPrompt
  | none => foundryDefaultUserPrompt

/-- Message list built by `AzureAIFoundryImageAnalyzer.analyze_image`
(`src/image_analyzer_foundry.py` lines 109-146), identical in
`src/image_analyzer_managed_identity.py` lines 158-196: the optional system
message, then one user message with a text part and an image-url part
(`detail: high`, fixed `data:image/jpeg;base64,` prefix). -/
def foundryBuildMessages (system_prompt user_prompt : Option String)
    (base64_image : String) : List Message :=
  foundrySystemMessages system_prompt ++
  [⟨"user", .parts
    [.text (foundryUserText user_prompt),
     .imageUrl ("data:image/jpeg;base64," ++ base64_image) (some "high")]⟩]

/-! ## `analyze_image`

The transport (`self.client.chat.completions.create`) is modelled as a
function of the message list and of the call index, so a stub can fail on
some calls and succeed on others. -/

/-- Result extraction `response.choices[0].message.content`
(`src/image_analyzer.py` line 121): on an empty `choices` list Python raises
`IndexError('list index out of range')`. -/
def extractFirstChoice (r : ChatResponse) : Except PyErr String :=
  match r.choices.head? with
  | some c => .ok c.message.content
  | none => .error (.indexError "list index out of range")

/-- Body of the `try` block of `AzureImageAnalyzer.analyze_image`
(`src/image_analyzer.py` lines 75-121) with `max_retries` exposed: build the
messages, run `_call_with_retry`, then read `response.choices[0]`.  When the
retry helper returned `None` (loop never ran), `.choices` on `None` raises
`AttributeError`. -/
def simpleAnalyzeBody (transport : List Message → Nat → Except PyErr ChatResponse)
    (max_retries : Nat) (image_data : List Nat)
    (system_prompt user_prompt : Option String) : Except PyErr String :=
  let encoded := encode_image image_data
  let messages := simpleBuildMessages system_prompt user_prompt encoded
  match (call_with_retry (fun k => transport messages k) max_retries).result with
  | .ok r => extractFirstChoice r
  | .err e => .error e
  | .noneResult =>
      .error (.attributeError "NoneType object has no attribute choices")

/-- `AzureImageAnalyzer.analyze_image` (`src/image_analyzer.py` lines 58-124):
the whole body runs under `except Exception as e:
raise Exception(f"Failed to analyze image: \x7bstr(e)\x7d")`, so every error
is re-wrapped in a bare `Exception` with the prefixed message. -/
def simpleAnalyzeImage (transport : List Message → Nat → Except PyErr ChatResponse)
    (max_retries : Nat) (image_data : List Nat)
    (system_prompt user_prompt : Option String) : Except PyErr String :=
  match simpleAnalyzeBody transport max_retries image_data system_prompt user_prompt with
  | .ok s => .ok s
  | .error e => .error (.exc ("Failed to analyze image: " ++ pyStr e))

/-- Body of the `try` block of `AzureAIFoundryImageAnalyzer.analyze_image`
(`src/image_analyzer_foundry.py` lines 104-156): build the messages, one
direct transport call (no retry in this variant), extract the first choice. -/
def foundryAnalyzeBody (transport : List Message → Except PyErr ChatResponse)
    (image_data : List Nat)
    (system_prompt user_prompt : Option String) : Except PyErr String :=
  let encoded := encode_image image_data
  let messages := foundryBuildMessages system_prompt user_prompt encoded
  match transport messages with
  | .ok r => extractFirstChoice r
  | .error e => .error e

/-- `AzureAIFoundryImageAnalyzer.analyze_image`
(`src/image_analyzer_foundry.py` lines 79-161): a `FileNotFoundError` becomes
`ValueError(f"Image file error: ...")` (unreachable for byte input), every
other error becomes `RuntimeError(f"Failed to analyze image: \x7bstr(e)\x7d")`. -/
def foundryAnalyzeImage (transport : List Message → Except PyErr ChatResponse)
    (image_data : List Nat)
    (system_prompt user_prompt : Option String) : Except PyErr String :=
  match foundryAnalyzeBody transport image_data system_prompt user_prompt with
  | .ok s => .ok s
  | .error e => .error (.runtimeError ("Failed to analyze image: " ++ pyStr e))

/-! ## `analyze_multiple_images`

`src/image_analyzer_foundry.py` lines 163-200 and
`src/image_analyzer_managed_identity.py` lines 235-273: iterate over
`enumerate(image_list)`, call `self.analyze_image` per item, and record per
item either `{"index": i, "success": True, "result": r}` or
`{"index": i, "success": False, "error": str(e)}`.  The per-image analysis
(`self.analyze_image` with the shared prompts already applied) is abstracted
as a function from the image to its outcome. -/

/-- One record of the result list of `analyze_multiple_images`. -/
structure BatchItem where
  index : Nat
  success : Bool
  result : Option String
  error : Option String
deriving DecidableEq, Repr

/-- The record `analyze_multiple_images` appends for item `i` given the
outcome of `self.analyze_image` on it. -/
def batchRecord (i : Nat) : Except PyErr String → BatchItem
  | .ok r => ⟨i, true, some r, none⟩
  | .error e => ⟨i, false, none, some (pyStr e)⟩

/-- The `for i, image_data in enumerate(image_list)` loop starting at
index `i`. -/
def analyzeMultipleFrom (analyze : α → Except PyErr String) (i : Nat) :
    List α → List BatchItem
  | [] => []
  | x :: xs => batchRecord i (analyze x) :: analyzeMultipleFrom analyze (i + 1) xs

/-- `analyze_multiple_images`: run the loop from index 0 over the whole
image list. -/
def analyze_multiple_images (analyze : α → Except PyErr String) (image_list : List α) :
    List BatchItem :=
  analyzeMultipleFrom analyze 0 image_list

/-! ## Request shape -/

/-- Shape asserted of every built request: some system messages (at most
one, all with role `system`), then exactly one user message whose content is
a text part followed by an image part whose url is the fixed
`data:image/jpeg;base64,` prefix followed by the payload. -/
def wellFormedRequest (encoded : String) (msgs : List Message) : Prop :=
  ∃ sysMsgs text detail,
    msgs = sysMsgs ++
      [⟨"user", .parts
        [.text text, .imageUrl ("data:image/jpeg;base64," ++ encoded) detail]⟩] ∧
    sysMsgs.length ≤ 1 ∧ ∀ m ∈ sysMsgs, m.role = "system"

/-! ## Lemmas: base64 round trip -/

/-- The base64 index function inverts the alphabet table. -/
theorem b64Index_b64Char {n : Nat} (h : n < 64) : b64Index (b64Char n) = some n := by
  have key : ∀ i : Fin 64, b64Index (b64Char i.val) = some i.val := by decide
  exact key ⟨n, h⟩

/-- No alphabet character is the padding character. -/
theorem b64Char_ne_pad {n : Nat} (h : n < 64) : b64Char n ≠ '=' := by
  have key : ∀ i : Fin 64, b64Char i.val ≠ '=' := by decide
  exact key ⟨n, h⟩

/-- Decoding inverts encoding on byte lists. -/
theorem b64_decode_encode : ∀ bytes : List Nat, (∀ b ∈ bytes, b < 256) →
    b64DecodeChars (b64EncodeChars bytes) = some bytes := by
  intro bytes
  induction bytes using b64EncodeChars.induct with
  | case1 => intro _; rfl
  | case2 b1 =>
      intro h
      have hb : b1 < 256 := h b1 (by simp)
      have h1 : b1 / 4 < 64 := by omega
      have h2 : b1 % 4 * 16 < 64 := by omega
      simp [b64EncodeChars, b64DecodeChars, b64Index_b64Char h1, b64Index_b64Char h2]
      omega
  | case3 b1 b2 =>
      intro h
      have hb1 : b1 < 256 := h b1 (by simp)
      have hb2 : b2 < 256 := h b2 (by simp)
      have h1 : b1 / 4 < 64 := by omega
      have h2 : b1 % 4 * 16 + b2 / 16 < 64 := by omega
      have h3 : b2 % 16 * 4 < 64 := by omega
      simp [b64EncodeChars, b64DecodeChars, b64Index_b64Char h1, b64Index_b64Char h2,
        b64Index_b64Char h3, b64Char_ne_pad h3]
      omega
  | case4 b1 b2 b3 rest ih =>
      intro h
      have hb1 : b1 < 256 := h b1 (by simp)
      have hb2 : b2 < 256 := h b2 (by simp)
      have hb3 : b3 < 256 := h b3 (by simp)
      have hrest := ih (fun b hb => h b (by simp [hb]))
      have h1 : b1 / 4 < 64 := by omega
      have h2 : b1 % 4 * 16 + b2 / 16 < 64 := by omega
      have h3 : b2 % 16 * 4 + b3 / 64 < 64 := by omega
      have h4 : b3 % 64 < 64 := by omega
      simp [b64EncodeChars, b64DecodeChars, b64Index_b64Char h1, b64Index_b64Char h2,
        b64Index_b64Char h3, b64Index_b64Char h4, b64Char_ne_pad h3, b64Char_ne_pad h4,
        hrest]
      refine ⟨by omega, by omega, by omega⟩

/-! ## Lemmas: the retry loop -/

/-- Loop exit: no iterations remain. -/
theorem call_with_retry_from_exit (call : Nat → Except ε ρ) {max_retries attempt : Nat}
    (h : ¬ attempt < max_retries) :
    call_with_retry_from call max_retries attempt = ⟨.noneResult, 0, []⟩ := by
  rw [call_with_retry_from]
  simp [h]

/-- A successful attempt returns the response at once: one call, no sleep. -/
theorem call_with_retry_from_ok {call : Nat → Except ε ρ} {max_retries attempt : Nat}
    {r : ρ} (h : attempt < max_retries) (hc : call attempt = .ok r) :
    call_with_retry_from call max_retries attempt = ⟨.ok r, 1, []⟩ := by
  rw [call_with_retry_from]
  simp [h, hc]

/-- A failure on the final attempt re-raises at once: one call, no sleep. -/
theorem call_with_retry_from_err_last {call : Nat → Except ε ρ}
    {max_retries attempt : Nat} {e : ε} (h : attempt < max_retries)
    (hl : attempt = max_retries - 1) (hc : call attempt = .error e) :
    call_with_retry_from call max_retries attempt = ⟨.err e, 1, []⟩ := by
  subst hl
  rw [call_with_retry_from]
  simp [h, hc]

/-- A failure on a non-final attempt sleeps `2 ^ attempt + 1` seconds and
continues with the next attempt. -/
theorem call_with_retry_from_err_step {call : Nat → Except ε ρ}
    {max_retries attempt : Nat} {e : ε} (h : attempt < max_retries)
    (hl : attempt ≠ max_retries - 1) (hc : call attempt = .error e) :
    call_with_retry_from call max_retries attempt =
      ⟨(call_with_retry_from call max_retries (attempt + 1)).result,
       (call_with_retry_from call max_retries (attempt + 1)).calls + 1,
       (2 ^ attempt + 1) :: (call_with_retry_from call max_retries (attempt + 1)).sleeps⟩ := by
  rw [call_with_retry_from]
  simp [h, hc, hl]

/-! ## Claims about the retry loop -/

/-- C1: for a transport that fails on the first two calls and succeeds on
the third, `_call_with_retry` with `max_retries = 3` returns the third
call's response, invokes the transport three times, and sleeps exactly
twice before the two retries, for 2 seconds then 3 seconds (the wait after
failed attempt `k` is `2 ^ k + 1`; no sleep before the first attempt). -/
theorem claim_C1_retry_twice_then_success
    (call : Nat → Except PyErr ChatResponse) (e0 e1 : PyErr) (r : ChatResponse)
    (h0 : call 0 = .error e0) (h1 : call 1 = .error e1) (h2 : call 2 = .ok r) :
    call_with_retry call 3 = ⟨.ok r, 3, [2, 3]⟩ := by
  rw [call_with_retry,
      call_with_retry_from_err_step (by omega) (by omega) h0,
      call_with_retry_from_err_step (by omega) (by omega) h1,
      call_with_retry_from_ok (by omega) h2]
  rfl

/-- Witness for C1: a concrete stub transport failing twice then answering. -/
def c1Transport : Nat → Except PyErr ChatResponse := fun k =>
  match k with
  | 0 => .error (.apiError "RateLimitError" "throttled")
  | 1 => .error (.apiError "APIConnectionError" "timeout")
  | _ => .ok ⟨[⟨⟨"A cat."⟩⟩]⟩

theorem claim_C1_witness :
    call_with_retry c1Transport 3 = ⟨.ok ⟨[⟨⟨"A cat."⟩⟩]⟩, 3, [2, 3]⟩ :=
  claim_C1_retry_twice_then_success c1Transport
    (.apiError "RateLimitError" "throttled") (.apiError "APIConnectionError" "timeout")
    ⟨[⟨⟨"A cat."⟩⟩]⟩ rfl rfl rfl

/-- C2: for a transport that fails on every call, `_call_with_retry` with
`max_retries = 3` invokes the transport exactly three times, then re-raises
the error of the third attempt; it never makes a fourth attempt, whatever
errors the transport raises. -/
theorem claim_C2_exhaustion_after_three_attempts
    (call : Nat → Except PyErr ChatResponse) (errs : Nat → PyErr)
    (hfail : ∀ k, call k = .error (errs k)) :
    call_with_retry call 3 = ⟨.err (errs 2), 3, [2, 3]⟩ := by
  rw [call_with_retry,
      call_with_retry_from_err_step (by omega) (by omega) (hfail 0),
      call_with_retry_from_err_step (by omega) (by omega) (hfail 1),
      call_with_retry_from_err_last (by omega) (by omega) (hfail 2)]
  rfl

/-- Witness error family for C2. -/
def c2Errs : Nat → PyErr := fun k => .apiError "APIError" (toString k)

theorem claim_C2_witness :
    call_with_retry
        (fun k => (.error (c2Errs k) : Except PyErr ChatResponse)) 3 =
      ⟨.err (c2Errs 2), 3, [2, 3]⟩ :=
  claim_C2_exhaustion_after_three_attempts
    (fun k => (.error (c2Errs k) : Except PyErr ChatResponse)) c2Errs (fun _ => rfl)

/-- The loop never runs when `max_retries = 0`. -/
theorem call_with_retry_zero (call : Nat → Except ε ρ) :
    call_with_retry call 0 = ⟨.noneResult, 0, []⟩ :=
  call_with_retry_from_exit call (by omega)

/-- C10: with `max_retries = 0`, `_call_with_retry` makes no transport call,
performs no sleep and returns `None` instead of a response or an error;
`analyze_image` then fails on `.choices` of that `None` result, and its
handler surfaces the wrapped `AttributeError`. -/
theorem claim_C10_zero_retries_returns_none
    (transport : List Message → Nat → Except PyErr ChatResponse)
    (image_data : List Nat) (system_prompt user_prompt : Option String) :
    (∀ call : Nat → Except PyErr ChatResponse,
        call_with_retry call 0 = ⟨.noneResult, 0, []⟩) ∧
    simpleAnalyzeImage transport 0 image_data system_prompt user_prompt =
      .error (.exc "Failed to analyze image: NoneType object has no attribute choices") := by
  constructor
  · intro call
    exact call_with_retry_zero call
  · simp [simpleAnalyzeImage, simpleAnalyzeBody, call_with_retry_zero, pyStr]

/-! ## Claims about error propagation -/

/-- Three failing attempts: the loop raises the third error after two
sleeps. -/
theorem call_with_retry_three_failures {call : Nat → Except ε ρ} {e0 e1 e2 : ε}
    (h0 : call 0 = .error e0) (h1 : call 1 = .error e1) (h2 : call 2 = .error e2) :
    call_with_retry call 3 = ⟨.err e2, 3, [2, 3]⟩ := by
  rw [call_with_retry,
      call_with_retry_from_err_step (by omega) (by omega) h0,
      call_with_retry_from_err_step (by omega) (by omega) h1,
      call_with_retry_from_err_last (by omega) (by omega) h2]
  rfl

/-- C3 counterexample: with a transport that always raises an
`APIConnectionError` with message `boom`, the error that reaches the caller
of `analyze_image` (`src/image_analyzer.py`) is
`Exception(Failed to analyze image: boom)` — a different error type and
message than the transport's own error, so it is not re-raised verbatim. -/
theorem claim_C3_counterexample :
    simpleAnalyzeImage
        (fun _ _ => .error (.apiError "APIConnectionError" "boom")) 3 [7] none none =
      .error (.exc "Failed to analyze image: boom") ∧
    PyErr.exc "Failed to analyze image: boom" ≠
      PyErr.apiError "APIConnectionError" "boom" := by
  have hret : call_with_retry
      (fun _ => (.error (.apiError "APIConnectionError" "boom") : Except PyErr ChatResponse)) 3 =
      ⟨.err (.apiError "APIConnectionError" "boom"), 3, [2, 3]⟩ :=
    call_with_retry_three_failures rfl rfl rfl
  constructor
  · simp [simpleAnalyzeImage, simpleAnalyzeBody, hret, pyStr]
  · decide

/-- C3 amended: when every attempt fails, `_call_with_retry` itself
re-raises the final transport error verbatim, but `analyze_image` of
`src/image_analyzer.py` catches it and raises
`Exception(Failed to analyze image: str(e))` instead, so the caller of
`analyze_image` receives the wrapped error, not the transport's error. -/
theorem claim_C3_amended
    (transport : List Message → Nat → Except PyErr ChatResponse)
    (errs : Nat → PyErr) (image_data : List Nat)
    (system_prompt user_prompt : Option String)
    (hfail : ∀ msgs k, transport msgs k = .error (errs k)) :
    (∀ msgs, call_with_retry (fun k => transport msgs k) 3 =
        ⟨.err (errs 2), 3, [2, 3]⟩) ∧
    simpleAnalyzeImage transport 3 image_data system_prompt user_prompt =
      .error (.exc ("Failed to analyze image: " ++ pyStr (errs 2))) := by
  have hret : ∀ msgs, call_with_retry (fun k => transport msgs k) 3 =
      ⟨.err (errs 2), 3, [2, 3]⟩ := fun msgs =>
    call_with_retry_three_failures (hfail msgs 0) (hfail msgs 1) (hfail msgs 2)
  refine ⟨hret, ?_⟩
  simp [simpleAnalyzeImage, simpleAnalyzeBody, hret]

theorem claim_C3_amended_witness :
    simpleAnalyzeImage
        (fun _ _ => .error (.apiError "RateLimitError" "too many requests")) 3
        [7] none none =
      .error (.exc "Failed to analyze image: too many requests") := by
  have h := (claim_C3_amended
    (fun _ _ => .error (.apiError "RateLimitError" "too many requests"))
    (fun _ => .apiError "RateLimitError" "too many requests")
    [7] none none (fun _ _ => rfl)).2
  simpa using h

/-- Spec-side predicate, modelled from the spec: whether an `analyze_image`
outcome is the dedicated `EmptyResponse` error the spec postulates for a
response with zero choices.  The source defines no such error class. -/
def isEmptyResponseError : Except PyErr String → Bool
  | .error (.emptyResponse _) => true
  | _ => false

/-- C5 counterexample: on a response whose `choices` list is empty,
`analyze_image` (`src/image_analyzer.py`) surfaces the `IndexError` wrapped
by its generic handler — `Exception(Failed to analyze image: list index out
of range)` — and not a dedicated `EmptyResponse` error. -/
theorem claim_C5_counterexample :
    simpleAnalyzeImage (fun _ _ => .ok ⟨[]⟩) 3 [7] none none =
      .error (.exc "Failed to analyze image: list index out of range") ∧
    isEmptyResponseError
      (simpleAnalyzeImage (fun _ _ => .ok ⟨[]⟩) 3 [7] none none) = false := by
  have hret : call_with_retry (fun _ => (.ok ⟨[]⟩ : Except PyErr ChatResponse)) 3 =
      ⟨.ok ⟨[]⟩, 1, []⟩ := by
    rw [call_with_retry,
      call_with_retry_from_ok (by omega)
        (show (fun _ => (.ok ⟨[]⟩ : Except PyErr ChatResponse)) 0 = .ok ⟨[]⟩ from rfl)]
  constructor
  · simp [simpleAnalyzeImage, simpleAnalyzeBody, hret, extractFirstChoice, pyStr]
  · simp [simpleAnalyzeImage, simpleAnalyzeBody, hret, extractFirstChoice, pyStr,
      isEmptyResponseError]

/-- C5 amended: on a response with an empty `choices` list, extraction
raises `IndexError(list index out of range)`, which the surrounding handler
wraps into the generic failure error of the variant —
`Exception(Failed to analyze image: ...)` in `src/image_analyzer.py`,
`RuntimeError(Failed to analyze image: ...)` in
`src/image_analyzer_foundry.py`; no dedicated `EmptyResponse` error exists. -/
theorem claim_C5_amended
    (transport : List Message → Nat → Except PyErr ChatResponse)
    (ftransport : List Message → Except PyErr ChatResponse)
    (image_data : List Nat) (system_prompt user_prompt : Option String)
    (hempty : ∀ msgs k, transport msgs k = .ok ⟨[]⟩)
    (hfempty : ∀ msgs, ftransport msgs = .ok ⟨[]⟩) :
    simpleAnalyzeImage transport 3 image_data system_prompt user_prompt =
      .error (.exc "Failed to analyze image: list index out of range") ∧
    foundryAnalyzeImage ftransport image_data system_prompt user_prompt =
      .error (.runtimeError "Failed to analyze image: list index out of range") := by
  have hret : ∀ msgs, call_with_retry (fun k => transport msgs k) 3 =
      ⟨.ok ⟨[]⟩, 1, []⟩ := fun msgs => by
    rw [call_with_retry, call_with_retry_from_ok (by omega) (hempty msgs 0)]
  constructor
  · simp [simpleAnalyzeImage, simpleAnalyzeBody, hret, extractFirstChoice, pyStr]
  · simp [foundryAnalyzeImage, foundryAnalyzeBody, hfempty, extractFirstChoice, pyStr]

theorem claim_C5_amended_witness :
    simpleAnalyzeImage (fun _ _ => .ok ⟨[]⟩) 3 [1, 2] none none =
      .error (.exc "Failed to analyze image: list index out of range") ∧
    foundryAnalyzeImage (fun _ => .ok ⟨[]⟩) [1, 2] none none =
      .error (.runtimeError "Failed to analyze image: list index out of range") :=
  claim_C5_amended (fun _ _ => .ok ⟨[]⟩) (fun _ => .ok ⟨[]⟩) [1, 2] none none
    (fun _ _ => rfl) (fun _ => rfl)

/-! ## Claims about prompt handling -/

/-- C4 counterexample: in `src/image_analyzer.py`, a whitespace-only user
prompt is truthy in Python, so `user_prompt or default` keeps it: the built
message list for `user_prompt = " "` differs from the one built for an
absent prompt, so blank and absent prompts are not interchangeable there. -/
theorem claim_C4_counterexample :
    simpleBuildMessages none (some " ") "E" ≠ simpleBuildMessages none none "E" := by
  decide

/-- C4 amended: in the foundry / managed-identity variants
(`system_prompt and system_prompt.strip()` guards) a blank or
whitespace-only prompt builds exactly the same message list as an absent
one; in `src/image_analyzer.py` (`prompt or default`) this holds only for
the empty string — a whitespace-only prompt is used verbatim and gives a
different request than an absent one. -/
theorem claim_C4_amended :
    (∀ (s : String) (usr : Option String) (enc : String), pyStrip s = "" →
        foundryBuildMessages (some s) usr enc = foundryBuildMessages none usr enc) ∧
    (∀ (sys : Option String) (u : String) (enc : String), pyStrip u = "" →
        foundryBuildMessages sys (some u) enc = foundryBuildMessages sys none enc) ∧
    (∀ (usr : Option String) (enc : String),
        simpleBuildMessages (some "") usr enc = simpleBuildMessages none usr enc) ∧
    (∀ (sys : Option String) (enc : String),
        simpleBuildMessages sys (some "") enc = simpleBuildMessages sys none enc) := by
  refine ⟨?_, ?_, ?_, ?_⟩
  · intro s usr enc h
    simp [foundryBuildMessages, foundrySystemMessages, h]
  · intro sys u enc h
    simp [foundryBuildMessages, foundryUserText, h]
  · intro usr enc
    simp [simpleBuildMessages, pyOrStr]
  · intro sys enc
    simp [simpleBuildMessages, pyOrStr]

theorem claim_C4_witness :
    foundryBuildMessages (some "  ") (some " ") "E" =
      foundryBuildMessages none none "E" := by
  have h1 := claim_C4_amended.1 "  " (some " ") "E" (by decide)
  have h2 := claim_C4_amended.2.1 none " " "E" (by decide)
  rw [h1, h2]

/-- C6 counterexample: in `src/image_analyzer_foundry.py` a non-blank user
prompt with surrounding whitespace is stripped before being placed in the
text part: for `user_prompt = " hi "` the text part is `hi`, not the
supplied string, so the prompt is not used verbatim character for
character. -/
theorem claim_C6_counterexample :
    foundryBuildMessages none (some " hi ") "E" =
      [⟨"user", .parts [.text "hi", .imageUrl "data:image/jpeg;base64,E" (some "high")]⟩] ∧
    (" hi " : String) ≠ "hi" := by
  decide

/-- C6 amended: in the foundry / managed-identity variants a non-blank
user prompt is used after stripping surrounding whitespace, and an absent
or blank prompt yields the fixed default text; in `src/image_analyzer.py`
any non-empty user prompt (whitespace-only included) is used verbatim and
only an empty or absent prompt yields that variant's default text. -/
theorem claim_C6_amended :
    (∀ (sys usr : Option String) (enc : String),
        foundryBuildMessages sys usr enc =
          foundrySystemMessages sys ++
          [⟨"user", .parts [.text (foundryUserText usr),
            .imageUrl ("data:image/jpeg;base64," ++ enc) (some "high")]⟩]) ∧
    (∀ u : String, u ≠ "" → pyStrip u ≠ "" → foundryUserText (some u) = pyStrip u) ∧
    (∀ u : String, pyStrip u = "" → foundryUserText (some u) = foundryDefaultUserPrompt) ∧
    foundryUserText none = foundryDefaultUserPrompt ∧
    (∀ (sys usr : Option String) (enc : String),
        simpleBuildMessages sys usr enc =
          [⟨"system", .str (pyOrStr sys defaultSystemPrompt)⟩,
           ⟨"user", .parts [.text (pyOrStr usr defaultUserPrompt),
             .imageUrl ("data:image/jpeg;base64," ++ enc) none]⟩]) ∧
    (∀ u : String, u ≠ "" → pyOrStr (some u) defaultUserPrompt = u) ∧
    pyOrStr (some "") defaultUserPrompt = defaultUserPrompt ∧
    pyOrStr none defaultUserPrompt = defaultUserPrompt := by
  refine ⟨fun _ _ _ => rfl, ?_, ?_, rfl, fun _ _ _ => rfl, ?_, rfl, rfl⟩
  · intro u h1 h2
    simp [foundryUserText, h1, h2]
  · intro u h
    simp [foundryUserText, h]
  · intro u h
    simp [pyOrStr, h]

theorem claim_C6_witness :
    foundryUserText (some " hello ") = "hello" ∧
    pyOrStr (some " hello ") defaultUserPrompt = " hello " := by
  have h1 := claim_C6_amended.2.1 " hello " (by decide) (by decide)
  have h2 := claim_C6_amended.2.2.2.2.2.1 " hello " (by decide)
  exact ⟨h1.trans (by decide), h2⟩

/-! ## Claim about request shape -/

/-- C7: for every input, both variants build an ordered message list of at
most one system message followed by exactly one user message whose content
is a text part then an image part, and the image url is exactly
`data:image/jpeg;base64,` followed by the payload, whatever the payload
(the MIME type is fixed regardless of the actual image format). -/
theorem claim_C7_request_shape (system_prompt user_prompt : Option String)
    (encoded : String) :
    wellFormedRequest encoded (simpleBuildMessages system_prompt user_prompt encoded) ∧
    wellFormedRequest encoded (foundryBuildMessages system_prompt user_prompt encoded) := by
  constructor
  · exact ⟨[⟨"system", .str (pyOrStr system_prompt defaultSystemPrompt)⟩],
      pyOrStr user_prompt defaultUserPrompt, none, rfl, by simp, by simp⟩
  · refine ⟨foundrySystemMessages system_prompt, foundryUserText user_prompt,
      some "high", rfl, ?_, ?_⟩
    · cases system_prompt with
      | none => simp [foundrySystemMessages]
      | some s =>
          simp only [foundrySystemMessages]
          split <;> simp
    · cases system_prompt with
      | none => simp [foundrySystemMessages]
      | some s =>
          simp only [foundrySystemMessages]
          split <;> simp

/-! ## Claim about the batch helper -/

/-- Each item of the batch loop records its own index and outcome. -/
theorem analyzeMultipleFrom_get {f : α → Except PyErr String} :
    ∀ (l : List α) (i j : Nat) (x : α), l.get? j = some x →
      (analyzeMultipleFrom f i l).get? j = some (batchRecord (i + j) (f x)) := by
  intro l
  induction l with
  | nil => intro i j x h; simp at h
  | cons y ys ih =>
      intro i j x h
      cases j with
      | zero =>
          simp at h
          subst h
          simp [analyzeMultipleFrom]
      | succ j =>
          have h2 : ys.get? j = some x := h
          have := ih (i + 1) j x h2
          simpa [analyzeMultipleFrom, Nat.add_assoc, Nat.add_comm 1 j] using this

/-- The batch loop preserves the length of the image list. -/
theorem analyzeMultipleFrom_length {f : α → Except PyErr String} :
    ∀ (l : List α) (i : Nat), (analyzeMultipleFrom f i l).length = l.length := by
  intro l
  induction l with
  | nil => intro i; rfl
  | cons y ys ih => intro i; simp [analyzeMultipleFrom, ih]

/-- C8: `analyze_multiple_images` returns one record per input image, in
order, entry `i` carrying index `i`; a failed analysis is recorded as
`success = false` with the error message and does not affect any other
entry (each record depends only on its own image's outcome). -/
theorem claim_C8_batch_isolation (analyze : α → Except PyErr String) (l : List α) :
    (analyze_multiple_images analyze l).length = l.length ∧
    ∀ (i : Nat) (x : α), l.get? i = some x →
      (analyze_multiple_images analyze l).get? i =
        some (batchRecord i (analyze x)) := by
  constructor
  · exact analyzeMultipleFrom_length l 0
  · intro i x h
    simpa using analyzeMultipleFrom_get l 0 i x h

/-- Witness per-image analyzer for C8: only the second image fails. -/
def c8Analyze : Nat → Except PyErr String := fun n =>
  if n = 20 then .error (.runtimeError "Failed to analyze image: boom")
  else .ok "a description"

theorem claim_C8_witness :
    (analyze_multiple_images c8Analyze [10, 20, 30]).length = 3 ∧
    (analyze_multiple_images c8Analyze [10, 20, 30]).get? 0 =
      some ⟨0, true, some "a description", none⟩ ∧
    (analyze_multiple_images c8Analyze [10, 20, 30]).get? 1 =
      some ⟨1, false, none, some "Failed to analyze image: boom"⟩ ∧
    (analyze_multiple_images c8Analyze [10, 20, 30]).get? 2 =
      some ⟨2, true, some "a description", none⟩ := by
  have h := claim_C8_batch_isolation c8Analyze [10, 20, 30]
  refine ⟨h.1, ?_, ?_, ?_⟩
  · have := h.2 0 10 rfl
    simpa [c8Analyze, batchRecord, pyStr] using this
  · have := h.2 1 20 rfl
    simpa [c8Analyze, batchRecord, pyStr] using this
  · have := h.2 2 30 rfl
    simpa [c8Analyze, batchRecord, pyStr] using this

/-! ## Claim about base64 round trip -/

/-- C9: for every list of image bytes, encoding is a base64 round-trip
fixed point: decoding the `encode_image` output succeeds and re-encoding
the decoded bytes gives back exactly the original encoding. -/
theorem claim_C9_base64_round_trip (image_data : List Nat)
    (h : ∀ b ∈ image_data, b < 256) :
    (b64decodeStr (encode_image image_data)).map encode_image =
      some (encode_image image_data) := by
  have hd : b64decodeStr (encode_image image_data) = some image_data := by
    show b64DecodeChars (String.mk (b64EncodeChars image_data)).data = some image_data
    exact b64_decode_encode image_data h
  rw [hd, Option.map_some']

theorem claim_C9_witness :
    (b64decodeStr (encode_image [77, 97, 110, 255, 0, 1])).map encode_image =
      some (encode_image [77, 97, 110, 255, 0, 1]) :=
  claim_C9_base64_round_trip [77, 97, 110, 255, 0, 1] (by decide)
